import Mathlib

/-!
Shallow embedding of the TLV transport layer of the Pex repository
(pex/proto/tlv/client.py, pex/proto/http/listener.py, pex/proto/ftp/client.py).

Bytes are modelled as `List Nat` (each element a byte value).  The stream
socket is modelled as a `SockState`: the bytes that the peer has sent and
that are still unread, a delivery schedule giving the chunk sizes that
successive `recv` calls hand back (modelling arbitrary fragmentation of a
TCP stream), and the current blocking flag of the socket.
-/

/-- Modelled from the spec: the `TLVPacket` codec lives in
`pex/proto/tlv/packet.py`, which is not among the given source files (only
its callers in `client.py` are).  Per the spec, the `type` field is an
unsigned 32-bit integer serialized big-endian; this is its 4-byte wire form. -/
def u32be (n : Nat) : List Nat :=
  [n / 16777216 % 256, n / 65536 % 256, n / 256 % 256, n % 256]

/-- Big-endian interpretation of a byte list (the inverse direction of
`u32be`, mirroring `struct.unpack` with a 4-byte argument). -/
def beU32 (b : List Nat) : Nat :=
  b.foldl (fun acc x => acc * 256 + x) 0

/-- Modelled from the spec: a single TLV protocol message, with an opaque
32-bit `type` and a `payload` byte sequence (`pex/proto/tlv/packet.py` is
absent from the sources; the spec's data model defines the fields). -/
structure TLVPacket where
  type : Nat
  payload : List Nat
  deriving DecidableEq, Repr

/-- Modelled from the spec: serialization of a packet, exactly
`type(4 bytes BE) || length(4 bytes BE) || payload(length bytes)`.
This is also the `buffer` attribute that `client.py` reads off a packet. -/
def encode (t : Nat) (payload : List Nat) : List Nat :=
  u32be t ++ u32be payload.length ++ payload

/-- Modelled from the spec: parsing a wire buffer into a packet.  Fails
(returns `none`, standing for FormatError) when the buffer is shorter than
8 bytes or shorter than 8 plus the declared length. -/
def decode (buf : List Nat) : Option TLVPacket :=
  if buf.length < 8 then none
  else
    let len := beU32 ((buf.drop 4).take 4)
    if buf.length < 8 + len then none
    else some ⟨beU32 (buf.take 4), (buf.drop 8).take len⟩

/-- Error outcomes of the socket model.  `eagain` stands for
EAGAIN/EWOULDBLOCK, `econnreset` for any other `socket.error`, `blocked`
for a blocking call that never returns (no data will arrive), `fuel` for a
read loop that never terminates, `structError` for `struct.unpack` applied
to a buffer that is not exactly 4 bytes, `format` for a packet parse
failure, and `runtime` for the RuntimeError raised on an absent socket. -/
inductive SockErr where
  | eagain
  | econnreset
  | blocked
  | fuel
  | structError
  | format
  | runtime
  deriving DecidableEq, Repr

/-- State of the connected stream socket: bytes sent by the peer and still
unread, the fragmentation schedule (sizes of the chunks successive `recv`
calls deliver; an empty schedule means each call delivers as much as was
asked for and available), and the socket's blocking flag. -/
structure SockState where
  stream : List Nat
  sched : List Nat
  blocking : Bool
  deriving DecidableEq, Repr

/-- One `socket.recv(size)` call: on an empty stream a non-blocking socket
raises EAGAIN and a blocking socket never returns; otherwise it delivers
the next chunk of the schedule, truncated to `size` and to the bytes
available, always at least one byte. -/
def recv (s : SockState) (size : Nat) : Except SockErr (List Nat × SockState) :=
  match s.stream with
  | [] => if s.blocking then .error .blocked else .error .eagain
  | x :: rest =>
    let k := match s.sched with
      | [] => size
      | c :: _ => min c size
    let n := min (max k 1) (x :: rest).length
    .ok ((x :: rest).take n, ⟨(x :: rest).drop n, s.sched.tail, s.blocking⟩)

/-- The payload loop of `TLVClient.read` (lines 205-208 of
`pex/proto/tlv/client.py`): while `length > 0`, read a chunk of at most
`length` bytes and append it.  `fuel` bounds the number of iterations;
running out of fuel models an infinite loop. -/
def readPayload : Nat → Nat → SockState → Except SockErr (List Nat × SockState)
  | _, 0, s => .ok ([], s)
  | 0, _ + 1, _ => .error .fuel
  | fuel + 1, len + 1, s =>
    match recv s (len + 1) with
    | .error e => .error e
    | .ok (chunk, s') =>
      match readPayload fuel (len + 1 - chunk.length) s' with
      | .error e => .error e
      | .ok (v, s'') => .ok (chunk ++ v, s'')

/-- The tail of `TLVClient.read` after the initial type read (lines
197-212): `setblocking(True)` has been applied to `s3` by the caller; a
single `recv(4)` fetches the length field, `struct.unpack` demands exactly
4 bytes, the payload loop gathers `length` bytes, and the concatenated
buffer is parsed as a `TLVPacket`. -/
def readCont (buffer : List Nat) (s3 : SockState) :
    Except SockErr (Option TLVPacket × SockState) :=
  match recv s3 4 with
  | .error e => .error e
  | .ok (lenBytes, s4) =>
    if lenBytes.length = 4 then
      match readPayload (beU32 lenBytes) (beU32 lenBytes) s4 with
      | .error e => .error e
      | .ok (value, s5) =>
        match decode (buffer ++ lenBytes ++ value) with
        | some p => .ok (some p, s5)
        | none => .error .format
    else .error .structError

/-- Embedding of `TLVClient.read` (lines 176-212 of
`pex/proto/tlv/client.py`) for a connected socket.  The socket is switched
to blocking mode `block`, a single `recv(4)` attempts the type field; on
EAGAIN/EWOULDBLOCK the call returns `none` (leaving the socket in mode
`block`); any other `socket.error` is caught and, since the handler does
not re-raise, execution falls through with `buffer` still empty; otherwise
the socket is set back to blocking and `readCont` finishes the frame. -/
def TLVClient_read : Bool → SockState → Except SockErr (Option TLVPacket × SockState)
  | block, ⟨stream, sched, _⟩ =>
    match recv ⟨stream, sched, block⟩ 4 with
    | .error SockErr.eagain => .ok (none, ⟨stream, sched, block⟩)
    | .error SockErr.econnreset => readCont [] ⟨stream, sched, true⟩
    | .error e => .error e
    | .ok (buffer, s2) => readCont buffer ⟨s2.stream, s2.sched, true⟩

/-- One outcome of a `socket.send(data)` call inside the `send_raw` write
loop: either `n` bytes were accepted, or a `socket.error` was raised. -/
inductive WOut where
  | accepted (n : Nat)
  | werr (e : SockErr)
  deriving DecidableEq, Repr

/-- The write loop of `TLVClient.send_raw` (lines 225-232 of
`pex/proto/tlv/client.py`), driven by the list of outcomes of successive
`socket.send` calls.  Returns the bytes actually transmitted and, when the
outcome list is exhausted before the buffer is, the bytes still pending
(`none` means the whole buffer was transmitted and the loop exited).
On EAGAIN/EWOULDBLOCK the source executes `continue`; on any other
`socket.error` the `if` has no else branch, so the handler falls through
and the loop likewise retries with the data unchanged. -/
def send_raw_loop (data : List Nat) (outs : List WOut) :
    List Nat × Option (List Nat) :=
  match data, outs with
  | [], _ => ([], none)
  | d, [] => ([], some d)
  | d, .accepted n :: rest =>
    let r := send_raw_loop (d.drop n) rest
    (d.take n ++ r.1, r.2)
  | d, .werr e :: rest =>
    if e = SockErr.eagain then send_raw_loop d rest
    else send_raw_loop d rest

/-- Embedding of `TLVClient.send_raw` (lines 214-232): raises RuntimeError
when the socket is absent, otherwise runs the write loop, which never
raises. -/
def send_raw (connected : Bool) (data : List Nat) (outs : List WOut) :
    Except SockErr (List Nat × Option (List Nat)) :=
  if connected then .ok (send_raw_loop data outs) else .error .runtime

/-- Embedding of `TLVClient.send` (lines 167-174): serializes the packet
(its `buffer` attribute, i.e. its wire form) and hands it to `send_raw`. -/
def TLVClient_send (connected : Bool) (p : TLVPacket) (outs : List WOut) :
    Except SockErr (List Nat × Option (List Nat)) :=
  send_raw connected (encode p.type p.payload) outs

/-- Embedding of `TLVClient.close` (lines 158-165).  The client slot is
`none` when never connected and `some b` for a held socket whose open flag
is `b`.  `if self.client:` skips a missing socket; otherwise
`socket.close()` runs (idempotent on an already-closed socket).  No path
raises. -/
def TLVClient_close : Option Bool → Except SockErr (Option Bool)
  | none => .ok none
  | some _ => .ok (some false)

/-- Identity of the GET closure a `TLVServerHTTP` registers (the same
function object is moved around by `set_urlpath`). -/
def getId : Nat := 0

/-- Identity of the POST closure a `TLVServerHTTP` registers. -/
def postId : Nat := 1

/-- The dispatcher's method table (`HTTPListener.methods`): a mapping from
URL path to the pair of registered GET/POST handler identities. -/
def Methods : Type := List (String × Nat × Nat)

/-- Dictionary lookup `methods.get(path)`. -/
def mget : List (String × Nat × Nat) → String → Option (Nat × Nat)
  | [], _ => none
  | (k, v) :: rest, key => if k = key then some v else mget rest key

/-- Dictionary removal `methods.pop(path)`. -/
def mpop : List (String × Nat × Nat) → String → List (String × Nat × Nat)
  | [], _ => []
  | (k1, v) :: rest, k =>
    if k1 = k then mpop rest k else (k1, v) :: mpop rest k

/-- Dictionary insertion/replacement `methods.update({path: handlers})`. -/
def mupdate (m : List (String × Nat × Nat)) (k : String) (v : Nat × Nat) :
    List (String × Nat × Nat) :=
  (k, v) :: mpop m k

/-- Mutable state of a `TLVServerHTTP` instance that its GET/POST closures
capture: the current URL path, the egress byte buffer, and whether a
callback was supplied. -/
structure ServerHTTP where
  urlpath : String
  egress : List Nat
  hasCallback : Bool
  deriving DecidableEq, Repr

/-- The combined system: the dispatcher's method table plus the one
transport's captured state. -/
structure Sys where
  methods : List (String × Nat × Nat)
  st : ServerHTTP
  deriving DecidableEq, Repr

/-- Embedding of `TLVServerHTTP.__init__` (lines 43-105): record the URL
path, an empty egress buffer and the callback, and register the GET/POST
closures in the dispatcher's table under the path. -/
def initServerHTTP (methods : List (String × Nat × Nat)) (hasCallback : Bool)
    (urlpath : String) : Sys :=
  ⟨mupdate methods urlpath (getId, postId), ⟨urlpath, [], hasCallback⟩⟩

/-- Embedding of `TLVServerHTTP.set_urlpath` (lines 107-122): pop the old
path from the table, set `urlpath` to `'/' + urlpath`, and re-register the
same two closures under the new path. -/
def set_urlpath (sys : Sys) (p : String) : Sys :=
  let m1 := mpop sys.methods sys.st.urlpath
  let newPath := "/" ++ p
  ⟨mupdate m1 newPath (getId, postId), ⟨newPath, sys.st.egress, sys.st.hasCallback⟩⟩

/-- Embedding of `TLVServerHTTP.send` (lines 124-131): append the packet's
wire bytes to the egress buffer. -/
def serverSend (sys : Sys) (p : TLVPacket) : Sys :=
  ⟨sys.methods, ⟨sys.st.urlpath, sys.st.egress ++ encode p.type p.payload,
    sys.st.hasCallback⟩⟩

/-- What an invoked handler wrote into the HTTP response: the status code
passed to `send_status`, if any, and the body bytes written to `wfile`. -/
structure HResp where
  status : Option Nat
  body : List Nat
  deriving DecidableEq, Repr

/-- The GET closure of `TLVServerHTTP` (lines 59-72): a no-op when the
request path differs from the captured `urlpath`; otherwise status 200,
the whole egress buffer as body, and the egress buffer cleared. -/
def handlerGet (st : ServerHTTP) (path : String) : HResp × ServerHTTP :=
  if path ≠ st.urlpath then (⟨none, []⟩, st)
  else (⟨some 200, st.egress⟩, ⟨st.urlpath, [], st.hasCallback⟩)

/-- Result of the dispatcher routing a GET request (`HTTPListener` do_GET,
lines 98-114 of `pex/proto/http/listener.py`): `notFound` when no entry is
registered for the path (404 default), `response` when our GET closure
ran, `noHandler` when the entry belongs to some other handler the model
does not embed. -/
inductive DispatchOut where
  | response (r : HResp) (sys : Sys)
  | notFound (sys : Sys)
  | noHandler (sys : Sys)
  deriving DecidableEq, Repr

/-- The dispatcher's GET routing: look the path up in the method table,
answer 404 when absent, otherwise invoke the registered GET handler. -/
def dispatchGet (sys : Sys) (path : String) : DispatchOut :=
  match mget sys.methods path with
  | none => .notFound sys
  | some (g, _) =>
    if g = getId then
      let r := handlerGet sys.st path
      .response r.1 ⟨sys.methods, r.2⟩
    else .noHandler sys

/-- A POST request as the handler sees it: its path, the Content-Length
header, the readable body stream, and whether writing the egress into the
response stream raises. -/
structure PostReq where
  path : String
  contentLength : Nat
  body : List Nat
  wfileFails : Bool
  deriving DecidableEq, Repr

/-- What the POST closure did: the status written, the egress bytes that
made it into the response (`none` when the write failed and was
swallowed), the packets passed to the callback, and the resulting state. -/
structure PostOut where
  status : Option Nat
  bodyWritten : Option (List Nat)
  callbacks : List TLVPacket
  st : ServerHTTP
  deriving DecidableEq, Repr

/-- The POST closure of `TLVServerHTTP` (lines 74-95): a no-op on a path
mismatch; otherwise read exactly Content-Length body bytes, send status
200, write the egress into the response inside try/except (a failure is
swallowed), then parse the body as a `TLVPacket` and invoke the callback
with it when one is registered. -/
def handlerPost (st : ServerHTTP) (r : PostReq) : Except SockErr PostOut :=
  if r.path ≠ st.urlpath then .ok ⟨none, none, [], st⟩
  else
    let data := r.body.take r.contentLength
    let written := if r.wfileFails then none else some st.egress
    if st.hasCallback then
      match decode data with
      | some p => .ok ⟨some 200, written, [p], st⟩
      | none => .error .format
    else .ok ⟨some 200, written, [], st⟩

/-- Outcome of `ftplib.retrbinary`: either the list of chunks it passed to
the write callback, or an exception. -/
inductive RetrResult where
  | done (chunks : List (List Nat))
  | exn
  deriving DecidableEq, Repr

/-- The body of the `try` block of `FTPClient.get_file` (lines 102-105 of
`pex/proto/ftp/client.py`): accumulate every chunk `retrbinary` hands the
callback into the in-memory buffer and return its final value; an
exception from `retrbinary` escapes the block. -/
def retr_collect (r : RetrResult) : Except Unit (List Nat) :=
  match r with
  | .done chunks => .ok (chunks.foldl (fun acc c => acc ++ c) [])
  | .exn => .error ()

/-- Embedding of `FTPClient.get_file` (lines 95-107): run the retrieval
and, on any exception, return the empty byte string instead. -/
def get_file (r : RetrResult) : List Nat :=
  match retr_collect r with
  | .ok v => v
  | .error _ => []

/-- The big-endian wire form of a 32-bit value is always 4 bytes. -/
theorem u32be_length (n : Nat) : (u32be n).length = 4 := rfl

/-- Reading back the 4 big-endian bytes of a value below 2^32 recovers it. -/
theorem beU32_u32be (n : Nat) (h : n < 2 ^ 32) : beU32 (u32be n) = n := by
  simp only [beU32, u32be, List.foldl]
  omega

/-- The first 4 bytes of an encoded packet are the type field. -/
theorem encode_take4 (t : Nat) (pl : List Nat) :
    (encode t pl).take 4 = u32be t := rfl

/-- Dropping the type field of an encoded packet leaves length and payload. -/
theorem encode_drop4 (t : Nat) (pl : List Nat) :
    (encode t pl).drop 4 = u32be pl.length ++ pl := rfl

/-- An encoded packet is 8 bytes of header plus the payload. -/
theorem encode_length (t : Nat) (pl : List Nat) :
    (encode t pl).length = 8 + pl.length := by
  simp [encode, u32be]
  omega

/-- Decoding inverts encoding for any representable type and payload. -/
theorem decode_encode (t : Nat) (pl : List Nat) (ht : t < 2 ^ 32)
    (hl : pl.length < 2 ^ 32) :
    decode (u32be t ++ u32be pl.length ++ pl) = some ⟨t, pl⟩ := by
  have hlen : (u32be t ++ u32be pl.length ++ pl).length = 8 + pl.length :=
    encode_length t pl
  have htake : (u32be t ++ u32be pl.length ++ pl).take 4 = u32be t :=
    encode_take4 t pl
  have hd4 : ((u32be t ++ u32be pl.length ++ pl).drop 4).take 4
      = u32be pl.length := rfl
  have hd8 : (u32be t ++ u32be pl.length ++ pl).drop 8 = pl := rfl
  simp only [decode, hlen, hd4, htake, hd8, beU32_u32be pl.length hl,
    beU32_u32be t ht]
  rw [if_neg (by omega), if_neg (by omega), List.take_length]

/-- C1: for every type below 2^32 and every payload (the empty one
included) whose length fits the 4-byte length field, decoding the encoding
of (type, payload) yields a packet equal to `TLVPacket.mk type payload`,
and the wire form is exactly the 4-byte big-endian type, then the 4-byte
big-endian length equal to the payload length, then the payload,
8 + length bytes in total. -/
theorem C1_roundtrip (t : Nat) (pl : List Nat) (ht : t < 2 ^ 32)
    (hl : pl.length < 2 ^ 32) :
    decode (encode t pl) = some ⟨t, pl⟩
    ∧ encode t pl = u32be t ++ u32be pl.length ++ pl
    ∧ (encode t pl).length = 8 + pl.length := by
  exact ⟨decode_encode t pl ht hl, rfl, encode_length t pl⟩

/-- C1 witness: the round trip evaluated at type 5 and payload [1, 2, 3]. -/
theorem C1_roundtrip_witness :
    5 < 2 ^ 32 ∧ ([1, 2, 3] : List Nat).length < 2 ^ 32
    ∧ decode (encode 5 [1, 2, 3]) = some ⟨5, [1, 2, 3]⟩
    ∧ (encode 5 [1, 2, 3]).length = 8 + 3 :=
  ⟨by norm_num, by norm_num,
    (C1_roundtrip 5 [1, 2, 3] (by norm_num) (by norm_num)).1, by decide⟩

/-- With an empty fragmentation schedule, a `recv` whose request fits the
available bytes delivers exactly what was requested. -/
theorem recv_spec (l : List Nat) (bb : Bool) (n : Nat) (h1 : 1 ≤ n)
    (h2 : n ≤ l.length) :
    recv ⟨l, [], bb⟩ n = .ok (l.take n, ⟨l.drop n, [], bb⟩) := by
  match l with
  | [] => simp at h2; omega
  | x :: rest =>
    simp only [recv]
    have hm : min (max n 1) (x :: rest).length = n := by
      simp only [List.length_cons] at h2 ⊢
      omega
    rw [hm]
    rfl

/-- With an empty schedule the payload loop fetches the whole stream in
one chunk when the requested length equals the stream length. -/
theorem readPayload_all (l : List Nat) (bb : Bool) :
    readPayload l.length l.length ⟨l, [], bb⟩ = .ok (l, ⟨[], [], bb⟩) := by
  match l with
  | [] => rfl
  | x :: rest =>
    rw [show (x :: rest).length = rest.length + 1 from rfl]
    rw [readPayload]
    rw [recv_spec (x :: rest) bb (rest.length + 1) (by omega) (by simp)]
    have ht : (x :: rest).take (rest.length + 1) = x :: rest := by simp
    have hd : (x :: rest).drop (rest.length + 1) = ([] : List Nat) := by simp
    rw [ht, hd]
    have h0 : rest.length + 1 - (x :: rest).length = 0 := by simp
    simp [h0, readPayload]

/-- A blocking `read` on a socket whose stream holds exactly one encoded
packet, delivered without adversarial fragmentation (empty schedule),
returns that packet and leaves the socket blocking with the stream
drained. -/
theorem read_encode (t : Nat) (pl : List Nat) (b : Bool) (ht : t < 2 ^ 32)
    (hl : pl.length < 2 ^ 32) :
    TLVClient_read true ⟨encode t pl, [], b⟩
      = .ok (some ⟨t, pl⟩, ⟨[], [], true⟩) := by
  have h1 : recv ⟨encode t pl, [], true⟩ 4
      = .ok (u32be t, ⟨u32be pl.length ++ pl, [], true⟩) := by
    have := recv_spec (encode t pl) true 4 (by omega)
      (by rw [encode_length]; omega)
    rw [encode_take4, encode_drop4] at this
    exact this
  have h2 : recv ⟨u32be pl.length ++ pl, [], true⟩ 4
      = .ok (u32be pl.length, ⟨pl, [], true⟩) := by
    have := recv_spec (u32be pl.length ++ pl) true 4 (by omega)
      (by simp [u32be])
    rw [show (u32be pl.length ++ pl).take 4 = u32be pl.length from rfl,
      show (u32be pl.length ++ pl).drop 4 = pl from rfl] at this
    exact this
  rw [TLVClient_read]
  simp only [h1]
  rw [readCont]
  simp only [h2, u32be_length, if_pos rfl, beU32_u32be pl.length hl]
  rw [show readPayload pl.length pl.length ⟨pl, [], true⟩
      = .ok (pl, ⟨[], [], true⟩) from readPayload_all pl true]
  simp only [decode_encode t pl ht hl]
  simp

/-- C2: fails on the code.  The frame for packet (type 0, payload [255])
is a complete, well-formed 9-byte encoding, yet when the underlying recv
delivers it in 1-byte chunks the blocking `read` raises a struct.error
(modelled as `structError`) instead of returning the packet: the two
4-byte header reads are single `recv` calls, not loops, so a short type
read and a short length read hand `struct.unpack` fewer than 4 bytes. -/
theorem C2_header_fragmentation :
    decode (encode 0 [255]) = some ⟨0, [255]⟩
    ∧ TLVClient_read true ⟨encode 0 [255], [1, 1, 1, 1, 1, 1, 1, 1, 1], true⟩
      = .error .structError := ⟨rfl, rfl⟩

/-- C4: a `read(block=false)` on a socket with zero bytes available
returns `none` immediately and consumes nothing (the stream and the
delivery schedule are untouched), and once a full frame has arrived a
subsequent blocking `read` returns it intact. -/
theorem C4_nonblocking_probe (t : Nat) (pl : List Nat) (sch : List Nat)
    (b : Bool) (ht : t < 2 ^ 32) (hl : pl.length < 2 ^ 32) :
    TLVClient_read false ⟨[], sch, b⟩ = .ok (none, ⟨[], sch, false⟩)
    ∧ TLVClient_read true ⟨encode t pl, [], false⟩
      = .ok (some ⟨t, pl⟩, ⟨[], [], true⟩) :=
  ⟨rfl, read_encode t pl false ht hl⟩

/-- C4 witness: the probe and the subsequent read evaluated at type 1,
payload [7], an arbitrary pending schedule [5] and an initially blocking
socket. -/
theorem C4_nonblocking_probe_witness :
    (1 : Nat) < 2 ^ 32 ∧ ([7] : List Nat).length < 2 ^ 32
    ∧ TLVClient_read false ⟨[], [5], true⟩ = .ok (none, ⟨[], [5], false⟩)
    ∧ TLVClient_read true ⟨encode 1 [7], [], false⟩
      = .ok (some ⟨1, [7]⟩, ⟨[], [], true⟩) :=
  ⟨by norm_num, by norm_num,
    (C4_nonblocking_probe 1 [7] [5] true (by norm_num) (by norm_num)).1,
    (C4_nonblocking_probe 1 [7] [5] true (by norm_num) (by norm_num)).2⟩

/-- A successful `recv` leaves the socket's blocking flag unchanged. -/
theorem recv_blocking (s : SockState) (n : Nat) (c : List Nat)
    (s2 : SockState) (h : recv s n = .ok (c, s2)) :
    s2.blocking = s.blocking := by
  obtain ⟨st, sc, bb⟩ := s
  cases st with
  | nil => cases bb <;> simp [recv] at h
  | cons x rest =>
    simp only [recv] at h
    simp at h
    rw [← h.2]

/-- The payload loop leaves the socket's blocking flag unchanged. -/
theorem readPayload_blocking (fuel : Nat) : ∀ (len : Nat) (s : SockState)
    (v : List Nat) (s' : SockState),
    readPayload fuel len s = .ok (v, s') → s'.blocking = s.blocking := by
  induction fuel with
  | zero =>
    intro len s v s' h
    cases len with
    | zero => simp [readPayload] at h; rw [← h.2]
    | succ n => simp [readPayload] at h
  | succ f ih =>
    intro len s v s' h
    cases len with
    | zero => simp [readPayload] at h; rw [← h.2]
    | succ n =>
      rw [readPayload] at h
      cases hrecv : recv s (n + 1) with
      | error e => rw [hrecv] at h; simp at h
      | ok q =>
        obtain ⟨chunk, s1⟩ := q
        rw [hrecv] at h
        simp only [] at h
        cases hrp : readPayload f (n + 1 - chunk.length) s1 with
        | error e => rw [hrp] at h; simp at h
        | ok q2 =>
          obtain ⟨v2, s2⟩ := q2
          rw [hrp] at h
          simp at h
          rw [← h.2]
          calc s2.blocking = s1.blocking := ih _ _ _ _ hrp
            _ = s.blocking := recv_blocking s (n + 1) chunk s1 hrecv

/-- The continuation of `read` after the type bytes leaves the blocking
flag where the caller set it whenever it returns a packet. -/
theorem readCont_blocking (buffer : List Nat) (s : SockState) (p : TLVPacket)
    (s' : SockState) (h : readCont buffer s = .ok (some p, s')) :
    s'.blocking = s.blocking := by
  unfold readCont at h
  cases hrecv : recv s 4 with
  | error e => rw [hrecv] at h; simp at h
  | ok q =>
    obtain ⟨lenBytes, s4⟩ := q
    rw [hrecv] at h
    simp only [] at h
    by_cases hl4 : lenBytes.length = 4
    · rw [if_pos hl4] at h
      cases hrp : readPayload (beU32 lenBytes) (beU32 lenBytes) s4 with
      | error e => rw [hrp] at h; simp at h
      | ok q2 =>
        obtain ⟨value, s5⟩ := q2
        rw [hrp] at h
        simp only [] at h
        cases hdec : decode (buffer ++ lenBytes ++ value) with
        | none => rw [hdec] at h; simp at h
        | some p2 =>
          rw [hdec] at h
          simp at h
          rw [← h.2]
          calc s5.blocking = s4.blocking :=
              readPayload_blocking _ _ _ _ _ hrp
            _ = s.blocking := recv_blocking s 4 lenBytes s4 hrecv
    · rw [if_neg hl4] at h; simp at h

/-- C9: whenever `TLVClient.read` returns a packet, the socket has been
switched back to blocking mode, whatever the `block` argument was. -/
theorem C9_blocking_restored (block : Bool) (s : SockState) (p : TLVPacket)
    (s' : SockState) (h : TLVClient_read block s = .ok (some p, s')) :
    s'.blocking = true := by
  obtain ⟨st, sc, bb⟩ := s
  simp only [TLVClient_read] at h
  cases hrecv : recv ⟨st, sc, block⟩ 4 with
  | error e =>
    match e with
    | .eagain => rw [hrecv] at h; simp at h
    | .econnreset =>
      rw [hrecv] at h
      simp only [] at h
      have := readCont_blocking [] ⟨st, sc, true⟩ p s' h
      simpa using this
    | .blocked => rw [hrecv] at h; simp at h
    | .fuel => rw [hrecv] at h; simp at h
    | .structError => rw [hrecv] at h; simp at h
    | .format => rw [hrecv] at h; simp at h
    | .runtime => rw [hrecv] at h; simp at h
  | ok q =>
    obtain ⟨buffer, s2⟩ := q
    rw [hrecv] at h
    simp only [] at h
    have := readCont_blocking buffer ⟨s2.stream, s2.sched, true⟩ p s' h
    simpa using this

/-- C9 witness: a non-blocking probe schedule at type 1, payload [7],
starting from a non-blocking socket, ends with the socket blocking. -/
theorem C9_blocking_restored_witness :
    TLVClient_read true ⟨encode 1 [7], [], false⟩
      = .ok (some ⟨1, [7]⟩, ⟨[], [], true⟩)
    ∧ (⟨[], [], true⟩ : SockState).blocking = true := by
  have h : TLVClient_read true ⟨encode 1 [7], [], false⟩
      = .ok (some ⟨1, [7]⟩, ⟨[], [], true⟩) := by rfl
  exact ⟨h, C9_blocking_restored true ⟨encode 1 [7], [], false⟩ ⟨1, [7]⟩
    ⟨[], [], true⟩ h⟩

/-- C3 counterexample: a `socket.send` failure that is not EAGAIN (here a
connection reset) is not surfaced as an error at all: `send` of the packet
(type 0, empty payload) over a socket whose single write attempt raises it
returns normally, with nothing transmitted and the whole buffer still
pending, because the except clause of `send_raw` tests for
EAGAIN/EWOULDBLOCK but never re-raises in the other case. -/
theorem C3_counterexample :
    TLVClient_send true ⟨0, []⟩ [.werr .econnreset]
      = .ok ([], some (encode 0 [])) := rfl

/-- C3 amended: `send` serializes the packet and loops on partial writes,
transmitting the buffer's bytes in order (transmitted plus pending always
reassembles the buffer, so a completed loop has sent everything exactly
once); a would-block error and every other socket-level write error alike
are swallowed and the write retried with the data unchanged — no write
failure is surfaced; only an absent socket raises (RuntimeError). -/
theorem C3_amended_send (t : Nat) (pl : List Nat) (outs : List WOut)
    (d : List Nat) (e : SockErr) :
    TLVClient_send true ⟨t, pl⟩ outs = .ok (send_raw_loop (encode t pl) outs)
    ∧ (send_raw_loop d outs).1 ++ ((send_raw_loop d outs).2.getD []) = d
    ∧ send_raw_loop d (.werr e :: outs) = send_raw_loop d outs
    ∧ TLVClient_send false ⟨t, pl⟩ outs = .error .runtime := by
  refine ⟨rfl, ?_, ?_, rfl⟩
  · induction outs generalizing d with
    | nil => cases d <;> simp [send_raw_loop]
    | cons o rest ih =>
      cases d with
      | nil => simp [send_raw_loop]
      | cons x xs =>
        cases o with
        | accepted n =>
          have ih2 := ih ((x :: xs).drop n)
          simp only [send_raw_loop]
          rw [List.append_assoc, ih2, List.take_append_drop]
        | werr e2 =>
          simp only [send_raw_loop, ite_self]
          exact ih (x :: xs)
  · cases d with
    | nil => simp [send_raw_loop]
    | cons x xs => simp only [send_raw_loop, ite_self]

/-- C8 counterexample: `close` on a never-connected client (no socket) and
on an already-closed socket both return normally instead of failing with a
ConnectionError: the method is `if self.client: self.client.close()` and
no branch raises. -/
theorem C8_counterexample :
    TLVClient_close none = .ok none
    ∧ TLVClient_close (some false) = .ok (some false) := ⟨rfl, rfl⟩

/-- C8 amended: `close` never raises: with no socket it is a no-op, and
with a socket (open or already closed) it closes it idempotently. -/
theorem C8_amended_close (c : Option Bool) :
    TLVClient_close c = .ok (c.map (fun _ => false)) := by
  cases c <;> rfl

/-- C10: `get_file` is total on every retrieval outcome: when the
underlying retrieval succeeds it returns the accumulated file contents,
and when the retrieval raises any exception it returns the empty byte
string instead of propagating. -/
theorem C10_get_file_total (r : RetrResult) :
    (∀ v, retr_collect r = .ok v → get_file r = v)
    ∧ (∀ e, retr_collect r = .error e → get_file r = []) := by
  cases r with
  | done chunks =>
    constructor
    · intro v hv
      simp only [retr_collect, Except.ok.injEq] at hv
      simpa [get_file, retr_collect] using hv
    · intro e he
      simp [retr_collect] at he
  | exn =>
    constructor
    · intro v hv
      simp [retr_collect] at hv
    · intro e he
      rfl

/-- C10 witness: a failed retrieval yields the empty string and a
successful chunked retrieval yields the concatenated contents. -/
theorem C10_get_file_total_witness :
    get_file .exn = [] ∧ get_file (.done [[1, 2], [3]]) = [1, 2, 3] :=
  ⟨(C10_get_file_total .exn).2 () rfl,
    (C10_get_file_total (.done [[1, 2], [3]])).1 [1, 2, 3] rfl⟩

/-- Popping a key removes every binding for it. -/
theorem mget_mpop_self (m : List (String × Nat × Nat)) (k : String) :
    mget (mpop m k) k = none := by
  induction m with
  | nil => rfl
  | cons e rest ih =>
    obtain ⟨k1, v1⟩ := e
    by_cases h : k1 = k
    · simpa [mpop, h] using ih
    · simp [mpop, mget, h, ih]

/-- Popping a key leaves every other key's binding unchanged. -/
theorem mget_mpop_ne (m : List (String × Nat × Nat)) (k j : String)
    (h : j ≠ k) : mget (mpop m k) j = mget m j := by
  have hk : ¬(k = j) := fun hkj => h hkj.symm
  induction m with
  | nil => rfl
  | cons e rest ih =>
    obtain ⟨k1, v1⟩ := e
    by_cases h1 : k1 = k
    · subst h1
      simp [mpop, mget, hk, ih]
    · simp [mpop, mget, h1, ih]

/-- Updating a key makes its binding the stored value. -/
theorem mget_mupdate_self (m : List (String × Nat × Nat)) (k : String)
    (v : Nat × Nat) : mget (mupdate m k v) k = some v := by
  simp [mupdate, mget]

/-- Updating a key leaves every other key's binding unchanged. -/
theorem mget_mupdate_ne (m : List (String × Nat × Nat)) (k j : String)
    (v : Nat × Nat) (h : j ≠ k) : mget (mupdate m k v) j = mget m j := by
  have hk : k ≠ j := fun hkj => h hkj.symm
  simp [mupdate, mget, hk, mget_mpop_ne m k j h]

/-- C5: after `send(p1); send(p2)` on a transport whose egress buffer was
empty and whose path is registered, a GET to the registered path answers
status 200 with body `encode(p1) ++ encode(p2)` and clears the egress
buffer, so an immediately following GET with no intervening sends answers
status 200 with an empty body. -/
theorem C5_egress_isolation (sys : Sys) (p1 p2 : TLVPacket)
    (hreg : mget sys.methods sys.st.urlpath = some (getId, postId))
    (hempty : sys.st.egress = []) :
    dispatchGet (serverSend (serverSend sys p1) p2) sys.st.urlpath
      = .response ⟨some 200, encode p1.type p1.payload ++ encode p2.type p2.payload⟩
          ⟨sys.methods, ⟨sys.st.urlpath, [], sys.st.hasCallback⟩⟩
    ∧ dispatchGet ⟨sys.methods, ⟨sys.st.urlpath, [], sys.st.hasCallback⟩⟩
        sys.st.urlpath
      = .response ⟨some 200, []⟩
          ⟨sys.methods, ⟨sys.st.urlpath, [], sys.st.hasCallback⟩⟩ := by
  obtain ⟨m, up, eg, cb⟩ := sys
  simp only [] at hreg hempty
  subst hempty
  constructor
  · simp [serverSend, dispatchGet, hreg, handlerGet, getId]
  · simp [dispatchGet, hreg, handlerGet, getId]

/-- C5 witness: the two GETs evaluated on a freshly registered transport
at path "/" after sending packets (1, [3]) and (2, [4]). -/
theorem C5_egress_isolation_witness :
    mget (initServerHTTP [] true "/").methods
        (initServerHTTP [] true "/").st.urlpath = some (getId, postId)
    ∧ (initServerHTTP [] true "/").st.egress = []
    ∧ dispatchGet
        (serverSend (serverSend (initServerHTTP [] true "/") ⟨1, [3]⟩) ⟨2, [4]⟩)
        (initServerHTTP [] true "/").st.urlpath
      = .response ⟨some 200, encode 1 [3] ++ encode 2 [4]⟩
          ⟨(initServerHTTP [] true "/").methods,
            ⟨(initServerHTTP [] true "/").st.urlpath, [],
              (initServerHTTP [] true "/").st.hasCallback⟩⟩ :=
  ⟨rfl, rfl,
    (C5_egress_isolation (initServerHTTP [] true "/") ⟨1, [3]⟩ ⟨2, [4]⟩ rfl rfl).1⟩

/-- C6 counterexample: on a transport registered at "/",
`set_urlpath("x")` moves the registration to "/x" (the source prepends a
slash), so a GET to the new path string "x" itself is NOT served: the
dispatcher finds no registration and falls through to its 404 default,
refuting the claim that a GET to newPath is served. -/
theorem C6_counterexample :
    dispatchGet (set_urlpath (initServerHTTP [] false "/") "x") "x"
      = .notFound (set_urlpath (initServerHTTP [] false "/") "x") := rfl

/-- C6 amended: `set_urlpath(newPath)` moves the registration to
`"/" ++ newPath`, keeping the same GET and POST handlers: provided the old
path differs from `"/" ++ newPath`, a GET to the old path is unhandled
(the dispatcher's 404 default) and a GET to `"/" ++ newPath` is served by
the same GET handler with the preserved egress buffer. -/
theorem C6_amended_rebinding (sys : Sys) (p : String)
    (hne : sys.st.urlpath ≠ "/" ++ p) :
    mget (set_urlpath sys p).methods sys.st.urlpath = none
    ∧ dispatchGet (set_urlpath sys p) sys.st.urlpath
      = .notFound (set_urlpath sys p)
    ∧ mget (set_urlpath sys p).methods ("/" ++ p) = some (getId, postId)
    ∧ dispatchGet (set_urlpath sys p) ("/" ++ p)
      = .response ⟨some 200, sys.st.egress⟩
          ⟨(set_urlpath sys p).methods,
            ⟨"/" ++ p, [], sys.st.hasCallback⟩⟩ := by
  obtain ⟨m, up, eg, cb⟩ := sys
  simp only [] at hne
  have h1 : mget (mupdate (mpop m up) ("/" ++ p) (getId, postId)) up = none := by
    rw [mget_mupdate_ne _ _ _ _ hne, mget_mpop_self]
  have h3 : mget (mupdate (mpop m up) ("/" ++ p) (getId, postId)) ("/" ++ p)
      = some (getId, postId) := mget_mupdate_self _ _ _
  refine ⟨?_, ?_, ?_, ?_⟩
  · simpa [set_urlpath] using h1
  · simp [set_urlpath, dispatchGet, h1]
  · simpa [set_urlpath] using h3
  · simp [set_urlpath, dispatchGet, h3, handlerGet]

/-- C6 amended witness: rebinding from "/" to "x" serves "/x". -/
theorem C6_amended_rebinding_witness :
    (initServerHTTP [] false "/").st.urlpath ≠ "/" ++ "x"
    ∧ dispatchGet (set_urlpath (initServerHTTP [] false "/") "x") ("/" ++ "x")
      = .response ⟨some 200, []⟩
          ⟨(set_urlpath (initServerHTTP [] false "/") "x").methods,
            ⟨"/" ++ "x", [], false⟩⟩ :=
  ⟨by decide,
    (C6_amended_rebinding (initServerHTTP [] false "/") "x" (by decide)).2.2.2⟩

/-- C7: the POST handler on a matching path reads exactly Content-Length
body bytes, and whether or not writing the egress into the response
raises (wfileFails), the failure is swallowed: the handler still returns
normally, the body decodes to a packet, and the registered callback is
invoked exactly once with that packet. -/
theorem C7_post_swallow (st : ServerHTTP) (r : PostReq) (p : TLVPacket)
    (hpath : r.path = st.urlpath) (hcb : st.hasCallback = true)
    (hlen : r.contentLength ≤ r.body.length)
    (hdec : decode (r.body.take r.contentLength) = some p) :
    (r.body.take r.contentLength).length = r.contentLength
    ∧ handlerPost st r
      = .ok ⟨some 200, if r.wfileFails then none else some st.egress, [p], st⟩ := by
  constructor
  · simp only [List.length_take]
    omega
  · simp [handlerPost, hpath, hcb, hdec]

/-- C7 witness: a POST of the 9-byte frame for packet (0, [255]) to the
matching path with a failing response write still invokes the callback
once with that packet. -/
theorem C7_post_swallow_witness :
    (⟨"/", 9, encode 0 [255], true⟩ : PostReq).path
        = (⟨"/", [5, 6], true⟩ : ServerHTTP).urlpath
    ∧ (⟨"/", [5, 6], true⟩ : ServerHTTP).hasCallback = true
    ∧ (⟨"/", 9, encode 0 [255], true⟩ : PostReq).contentLength
        ≤ (⟨"/", 9, encode 0 [255], true⟩ : PostReq).body.length
    ∧ handlerPost ⟨"/", [5, 6], true⟩ ⟨"/", 9, encode 0 [255], true⟩
      = .ok ⟨some 200, none, [⟨0, [255]⟩], ⟨"/", [5, 6], true⟩⟩ :=
  ⟨rfl, rfl, by norm_num [encode_length],
    (C7_post_swallow ⟨"/", [5, 6], true⟩ ⟨"/", 9, encode 0 [255], true⟩
      ⟨0, [255]⟩ rfl rfl (by norm_num [encode_length]) rfl).2⟩
